import Mathlib

/-!
Verification development for the imagemagick-convert library
(src/lib/convert.js): a shallow embedding of its configuration model,
command builder (getHandle / getArgs / resizeFactory / geometryFactory)
and the synchronous setup phase of the conversion orchestrator
(proceed / pipe), together with theorems about the claims of the spec.
-/

/-- A JavaScript value as used by the option map of the library:
`undefined`, `null`, booleans, numbers (all numbers occurring in the
library are integers), strings, and `Buffer` objects (modelled by their
byte list). -/
inductive JSVal where
  | vUndefined
  | vNull
  | vBool (b : Bool)
  | vNum (n : Int)
  | vStr (s : String)
  | vBuf (bytes : List Nat)
deriving DecidableEq

/-- JavaScript truthiness of a value. `undefined`, `null`, `false`,
`0` and `""` are falsy; every object (in particular every `Buffer`,
even an empty one) is truthy. -/
def JSVal.truthy : JSVal → Bool
  | .vUndefined => false
  | .vNull => false
  | .vBool b => b
  | .vNum n => decide (n ≠ 0)
  | .vStr s => decide (s ≠ "")
  | .vBuf _ => true

/-- JavaScript string coercion as produced by template literals; the
library only ever coerces `null`, booleans, integers and strings
(a `Buffer` value never reaches a coercion site in the claims below,
so its decoded-bytes stringification is not modelled precisely). -/
def JSVal.toStr : JSVal → String
  | .vUndefined => "undefined"
  | .vNull => "null"
  | .vBool b => if b then "true" else "false"
  | .vNum n => toString n
  | .vStr s => s
  | .vBuf _ => "[buffer]"

/-- Whether a value is a JavaScript boolean (`typeof value === 'boolean'`). -/
def JSVal.isBool : JSVal → Bool
  | .vBool _ => true
  | _ => false

/-- A merged option map: total lookup from option name to value
(a `Map` lookup of a missing key yields `undefined`). -/
def Opts : Type := String → JSVal

/-- `const rootCmd = process.platform === 'win32' ? 'magick' : 'convert'`;
modelled for a non-win32 platform. -/
def rootCmd : String := "convert"

/-- `const RESIZE_DEFAULT = 'crop'`. -/
def RESIZE_DEFAULT : String := "crop"

/-- The `optionsDefaults` record of src/lib/convert.js. -/
def optionsDefaults : List (String × JSVal) :=
  [("path", .vStr rootCmd),
   ("srcData", .vNull),
   ("srcFormat", .vNull),
   ("width", .vNull),
   ("height", .vNull),
   ("resize", .vStr RESIZE_DEFAULT),
   ("density", .vNum 600),
   ("background", .vStr ("none")),
   ("gravity", .vStr ("Center")),
   ("format", .vNull),
   ("quality", .vNum 75),
   ("blur", .vNull),
   ("rotate", .vNull),
   ("flip", .vBool false),
   ("alpha", .vNull),
   ("clip", .vNull),
   ("alpha2", .vNull),
   ("strip", .vBool true)]

/-- The `attributesMap` set, in its fixed insertion order (a JS `Set`
iterates in insertion order). -/
def attributesMap : List String :=
  ["density", "background", "gravity", "quality", "blur",
   "rotate", "flip", "alpha", "clip", "alpha2", "strip"]

/-- First-match lookup in an association list (a caller option record;
records carry no duplicate keys). -/
def assocLookup : List (String × JSVal) → String → Option JSVal
  | [], _ => none
  | (k, v) :: rest, key => if k = key then v else assocLookup rest key

/-- The `Converter` constructor: `new Map(Object.entries({...optionsDefaults,
...options}))`. A caller-supplied key wins over the default; a key present
in neither record reads as `undefined`. -/
def mkOptions (caller : List (String × JSVal)) : Opts :=
  fun key =>
    match assocLookup caller key with
    | some v => v
    | none =>
      match assocLookup optionsDefaults key with
      | some v => v
      | none => .vUndefined

/-- JavaScript `Array.prototype.join(sep)` on a list of strings. -/
def joinSep (sep : String) : List String → String
  | [] => ""
  | [x] => x
  | x :: rest => x ++ sep ++ joinSep sep rest

/-- `getHandle(format, name)`: pushes `format` when truthy, then
`name || '-'`, and joins with `:`. Both parameters default to `null` in
the source; every call in the source passes at most `format`, so `name`
is always `null` there. -/
def getHandle (format : JSVal) (name : JSVal) : String :=
  let occurrence : List String :=
    (if format.truthy then [format.toStr] else []) ++
      [if name.truthy then name.toStr else "-"]
  joinSep (":") occurrence

/-- `geometryFactory()`: pushes `w || w === 0 ? w : ''`, then pushes `h`
when `h || h === 0`, and joins with `x`. -/
def geometryFactory (o : Opts) : String :=
  let w := o ("width")
  let h := o ("height")
  let size : List String :=
    [if w.truthy ∨ w = .vNum 0 then w.toStr else ""] ++
      (if h.truthy ∨ h = .vNum 0 then [h.toStr] else [])
  joinSep ("x") size

/-- The `resizeMap` of `resizeFactory`, as a lookup: the map has exactly
the keys `'fit'`, `'fill'`, `'crop'` (a `Map.get` with any other key —
including any non-string — yields `undefined`, modelled by `none`). -/
def resizeMapGet (geometry : String) (key : JSVal) : Option String :=
  if key = .vStr ("fit") then some ("-resize " ++ geometry)
  else if key = .vStr ("fill") then some ("-resize " ++ geometry ++ "!")
  else if key = .vStr ("crop") then
    some ("-resize " ++ geometry ++ "^ -crop " ++ geometry ++ "+0+0!")
  else none

/-- `resizeFactory()`: empty when `resize` is falsy or the geometry is
empty, otherwise `resizeMap.get(resize) || resizeMap.get(RESIZE_DEFAULT)`. -/
def resizeFactory (o : Opts) : String :=
  let resize := o ("resize")
  let geometry := geometryFactory o
  if resize.truthy = false ∨ geometry = "" then ""
  else
    match resizeMapGet geometry resize with
    | some clause => clause
    | none => (resizeMapGet geometry (.vStr RESIZE_DEFAULT)).getD ""

/-- `attribute.replace(/\d*$/, '')`: strip the trailing run of decimal
digits from a string. -/
def stripTrailingDigits (s : String) : String :=
  String.mk ((s.data.reverse.dropWhile Char.isDigit).reverse)

/-- The tokens contributed by one attribute inside the loop of
`getArgs`: a `-name` flag (digits stripped) when the value is truthy or
exactly the number 0, followed by the coerced value unless the value is
boolean. -/
def attrChunk (o : Opts) (attr : String) : List String :=
  let value := o attr
  if value.truthy ∨ value = .vNum 0 then
    ("-" ++ stripTrailingDigits attr) ::
      (if value.isBool then [] else [value.toStr])
  else []

/-- All attribute-flag tokens, in the fixed iteration order of
`attributesMap`. -/
def attrTokens (o : Opts) : List String :=
  attributesMap.flatMap (attrChunk o)

/-- `getArgs(origin, result)`, transliterated: push `origin`, loop over
`attributesMap` pushing flag (and value when non-boolean) for each
truthy-or-zero attr, push the resize clause when non-empty, push
`result`. -/
def getArgs (o : Opts) (origin result : String) : List String :=
  let resize := resizeFactory o
  let args := [origin]
  let args := attributesMap.foldl
    (fun acc attr =>
      let value := o attr
      if value.truthy ∨ value = .vNum 0 then
        let acc := acc ++ [("-" ++ stripTrailingDigits attr)]
        if value.isBool then acc else acc ++ [value.toStr]
      else acc)
    args
  let args := if resize ≠ "" then args ++ [resize] else args
  args ++ [result]

/-- The full command token list built by `proceed`/`pipe` for a caller
option record: `getArgs(getHandle(srcFormat), getHandle(format))` on the
merged options. -/
def buildCmd (caller : List (String × JSVal)) : List String :=
  let o := mkOptions caller
  getArgs o (getHandle (o ("srcFormat")) JSVal.vNull) (getHandle (o ("format")) JSVal.vNull)

/-- The error message of the `srcData` validation in `proceed` and
`pipe`. -/
def invalidInputMsg : String :=
  "imagemagick-convert: the field `srcData` is required and should have `Buffer` type"

/-- `source && (source instanceof Buffer)`: the validation both
`proceed` and `pipe` perform before doing anything else. -/
def srcDataOk (o : Opts) : Bool :=
  (o ("srcData")).truthy &&
    (match o ("srcData") with
     | .vBuf _ => true
     | _ => false)

/-- An observable action of the synchronous setup phase of a conversion
run: spawning the subprocess, registering a process-exit hook
(`process.on('exit', ...)`), or de-registering one (`process.off` /
`removeListener` — present in the model so that its absence from every
trace is expressible; the source never performs it). -/
inductive RunEvent where
  | spawnProc (path : String) (args : List String)
  | registerExitHook
  | deregisterExitHook
deriving DecidableEq

/-- Immediate settlement outcome of the setup phase: rejected with an
error message, or still pending on subprocess events. -/
inductive Settle where
  | rejected (msg : String)
  | pending
deriving DecidableEq

/-- The synchronous setup phase of `proceed()`: validate `srcData`
(rejecting with `invalidInputMsg` and performing no action otherwise),
build the handles and args, spawn, wire the stream handlers (which touch
no global state) and register the process-exit hook. -/
def proceedSetup (o : Opts) : Settle × List RunEvent :=
  if srcDataOk o then
    let origin := getHandle (o ("srcFormat")) JSVal.vNull
    let result := getHandle (o ("format")) JSVal.vNull
    let args := getArgs o origin result
    (Settle.pending,
     [RunEvent.spawnProc (o ("path")).toStr args, RunEvent.registerExitHook])
  else (Settle.rejected invalidInputMsg, [])

/-- The synchronous setup phase of `pipe()`: identical validation
(thrown rather than rejected — both modelled as `Settle.rejected`),
then the same spawn and exit-hook registration. -/
def pipeSetup (o : Opts) : Settle × List RunEvent :=
  if srcDataOk o then
    let origin := getHandle (o ("srcFormat")) JSVal.vNull
    let result := getHandle (o ("format")) JSVal.vNull
    let args := getArgs o origin result
    (Settle.pending,
     [RunEvent.spawnProc (o ("path")).toStr args, RunEvent.registerExitHook])
  else (Settle.rejected invalidInputMsg, [])

/-- Number of subprocess spawns in a trace. -/
def spawnCount (events : List RunEvent) : Nat :=
  (events.filter
    (fun e =>
      match e with
      | RunEvent.spawnProc _ _ => true
      | _ => false)).length

/-- The setup traces of `n` consecutive conversions of the same
converter, concatenated (the process-exit hook registry is process-wide,
so hook events of successive runs accumulate in one global trace). -/
def manyTraces (o : Opts) (n : Nat) : List RunEvent :=
  (List.replicate n (proceedSetup o).2).flatMap id

/-- One step of the `getArgs` attribute loop appends exactly the chunk
of that attribute. -/
theorem getArgs_step_eq (o : Opts) (acc : List String) (a : String) :
    (let value := o a
      if value.truthy ∨ value = .vNum 0 then
        let acc2 := acc ++ [("-" ++ stripTrailingDigits a)]
        if value.isBool then acc2 else acc2 ++ [value.toStr]
      else acc) = acc ++ attrChunk o a := by
  simp only [attrChunk]
  by_cases hc : (o a).truthy = true ∨ o a = JSVal.vNum 0
  · simp only [if_pos hc]
    by_cases hb : (o a).isBool = true
    · simp [hb]
    · simp [hb, List.append_assoc]
  · simp [hc]

/-- The attribute loop of `getArgs` over any list of attribute names
appends the concatenation of their chunks. -/
theorem getArgs_foldl_eq (o : Opts) (l : List String) (init : List String) :
    l.foldl
      (fun acc attr =>
        let value := o attr
        if value.truthy ∨ value = .vNum 0 then
          let acc := acc ++ [("-" ++ stripTrailingDigits attr)]
          if value.isBool then acc else acc ++ [value.toStr]
        else acc)
      init = init ++ l.flatMap (attrChunk o) := by
  induction l generalizing init with
  | nil => simp
  | cons a rest ih =>
    simp only [List.foldl_cons, List.flatMap_cons]
    rw [getArgs_step_eq o init a, ih, List.append_assoc]

/-- `getArgs` produces origin, then the attribute tokens, then the
resize clause when non-empty, then the result handle. -/
theorem getArgs_eq (o : Opts) (origin result : String) :
    getArgs o origin result =
      [origin] ++ attrTokens o ++
        (if resizeFactory o = "" then [] else [resizeFactory o]) ++ [result] := by
  simp only [getArgs, attrTokens, getArgs_foldl_eq]
  by_cases hr : resizeFactory o = ""
  · simp [hr]
  · simp [hr, List.append_assoc]

/-- C2: the built command token list has the form
`[originHandle, ...attributeFlagTokens, optional resizeClause,
destinationHandle]`; a handle is the format tag followed by `:` followed
by the name when a format tag is present, the name defaults to `-`, and
when no format tag is present the handle is just the name (`-` by
default); in particular `srcFormat = "PNG"` gives origin `PNG:-` and
`format = "JPEG"` gives destination `JPEG:-`. -/
theorem cmd_token_shape (o : Opts) :
    (getArgs o (getHandle (o ("srcFormat")) JSVal.vNull)
        (getHandle (o ("format")) JSVal.vNull) =
      [getHandle (o ("srcFormat")) JSVal.vNull] ++ attrTokens o ++
        (if resizeFactory o = "" then [] else [resizeFactory o]) ++
        [getHandle (o ("format")) JSVal.vNull])
  ∧ (∀ f : JSVal, f.truthy = true →
      getHandle f JSVal.vNull = f.toStr ++ ":" ++ "-")
  ∧ (∀ f : JSVal, f.truthy = false → getHandle f JSVal.vNull = "-")
  ∧ getHandle (.vStr ("PNG")) JSVal.vNull = "PNG:-"
  ∧ getHandle (.vStr ("JPEG")) JSVal.vNull = "JPEG:-" := by
  refine ⟨getArgs_eq o _ _, ?_, ?_, ?_, ?_⟩
  · intro f hf
    simp [getHandle, joinSep, hf]
    simp [JSVal.truthy]
  · intro f hf
    simp [getHandle, joinSep, hf]
    simp [JSVal.truthy]
  · decide
  · decide

/-- Witness for `cmd_token_shape` at concrete inputs. -/
theorem cmd_token_shape_witness :
    getHandle (JSVal.vStr ("PNG")) JSVal.vNull = "PNG" ++ ":" ++ "-" ∧
    getHandle JSVal.vNull JSVal.vNull = "-" :=
  ⟨(cmd_token_shape (mkOptions [])).2.1 (JSVal.vStr ("PNG")) (by decide),
   (cmd_token_shape (mkOptions [])).2.2.1 JSVal.vNull (by decide)⟩

/-- C1: with `resize = crop`, `width = 100`, `height = 50` the resize
clause is exactly `-resize 100x50^ -crop 100x50+0+0!`; and in general,
over a non-empty geometry, `fit` yields `-resize <geometry>`, `fill`
yields `-resize <geometry>!` and `crop` yields
`-resize <geometry>^ -crop <geometry>+0+0!`. -/
theorem resize_clause_modes (o : Opts) :
    (o ("resize") = .vStr ("crop") → o ("width") = .vNum 100 →
      o ("height") = .vNum 50 →
      resizeFactory o = "-resize 100x50^ -crop 100x50+0+0!")
  ∧ (geometryFactory o ≠ "" →
      (o ("resize") = .vStr ("fit") →
        resizeFactory o = "-resize " ++ geometryFactory o)
      ∧ (o ("resize") = .vStr ("fill") →
        resizeFactory o = "-resize " ++ geometryFactory o ++ "!")
      ∧ (o ("resize") = .vStr ("crop") →
        resizeFactory o =
          "-resize " ++ geometryFactory o ++ "^ -crop " ++
            geometryFactory o ++ "+0+0!")) := by
  constructor
  · intro hr hw hh
    have hg : geometryFactory o = "100x50" := by
      simp [geometryFactory, hw, hh, JSVal.truthy, JSVal.toStr, joinSep]
      decide
    simp [resizeFactory, hr, hg, resizeMapGet, JSVal.truthy]
  · intro hg
    refine ⟨?_, ?_, ?_⟩ <;> intro hr <;>
      simp [resizeFactory, hr, hg, resizeMapGet, JSVal.truthy]

/-- Witness for `resize_clause_modes`: the crop clause at
`width = 100`, `height = 50` and the fit clause at `width = 200`. -/
theorem resize_clause_modes_witness :
    resizeFactory (mkOptions [("width", JSVal.vNum 100), ("height", JSVal.vNum 50)]) =
      "-resize 100x50^ -crop 100x50+0+0!" ∧
    resizeFactory (mkOptions [("width", JSVal.vNum 200), ("resize", JSVal.vStr ("fit"))]) =
      "-resize " ++
        geometryFactory (mkOptions [("width", JSVal.vNum 200), ("resize", JSVal.vStr ("fit"))]) :=
  ⟨(resize_clause_modes (mkOptions [("width", JSVal.vNum 100), ("height", JSVal.vNum 50)])).1
      (by decide) (by decide) (by decide),
   ((resize_clause_modes
        (mkOptions [("width", JSVal.vNum 200), ("resize", JSVal.vStr ("fit"))])).2
      (by decide)).1 (by decide)⟩


/-- A non-empty string stays non-empty when extended on the right. -/
theorem append_ne_empty_left (s t : String) (hs : s ≠ "") : s ++ t ≠ "" := by
  intro h
  apply hs
  have hd := congrArg String.data h
  rw [String.data_append] at hd
  rcases List.append_eq_nil.mp hd with ⟨h1, h2⟩
  exact String.ext h1

/-- Every clause stored in the resize map is a non-empty string. -/
theorem resizeMapGet_ne_empty (g : String) (k : JSVal) (c : String)
    (h : resizeMapGet g k = some c) : c ≠ "" := by
  simp only [resizeMapGet] at h
  split at h
  · cases h
    exact append_ne_empty_left ("-resize ") g (by decide)
  · split at h
    · cases h
      exact append_ne_empty_left ("-resize " ++ g) ("!")
        (append_ne_empty_left ("-resize ") g (by decide))
    · split at h
      · cases h
        exact append_ne_empty_left ("-resize " ++ g ++ "^ -crop " ++ g) ("+0+0!")
          (append_ne_empty_left ("-resize " ++ g ++ "^ -crop ") g
            (append_ne_empty_left ("-resize " ++ g) ("^ -crop ")
              (append_ne_empty_left ("-resize ") g (by decide))))
      · exact absurd h (by simp)

/-- When the resize mode is truthy and the geometry non-empty,
`resizeFactory` emits a (non-empty) clause. -/
theorem resizeFactory_ne_empty (o : Opts) (hr : (o ("resize")).truthy = true)
    (hg : geometryFactory o ≠ "") : resizeFactory o ≠ "" := by
  have hcond : ¬((o ("resize")).truthy = false ∨ geometryFactory o = "") := by
    simp [hr, hg]
  simp only [resizeFactory, if_neg hcond]
  cases hmg : resizeMapGet (geometryFactory o) (o ("resize")) with
  | some clause =>
    exact resizeMapGet_ne_empty _ _ _ hmg
  | none =>
    show (resizeMapGet (geometryFactory o) (JSVal.vStr RESIZE_DEFAULT)).getD "" ≠ ""
    have hcrop : resizeMapGet (geometryFactory o) (.vStr RESIZE_DEFAULT) =
        some ("-resize " ++ geometryFactory o ++ "^ -crop " ++
          geometryFactory o ++ "+0+0!") := by
      simp [resizeMapGet, RESIZE_DEFAULT]
    rw [hcrop, Option.getD_some]
    exact resizeMapGet_ne_empty _ _ _ hcrop

/-- A value on which the geometry builder treats the dimension as
absent: falsy and not the number 0 (JS `w || w === 0` fails). -/
def dimAbsent (v : JSVal) : Prop := v.truthy = false ∧ v ≠ .vNum 0

/-- C3: with `width` the number 0 and `height` absent, the geometry
string is `"0"` (not empty) and a resize clause is emitted (the resize
mode being set, as it always is after merging with the defaults); with
`width` absent entirely and `height` absent, the geometry string is `""`
and no resize clause is emitted at all. -/
theorem geometry_zero_vs_absent (o : Opts) :
    ((o ("resize")).truthy = true → o ("width") = .vNum 0 →
      dimAbsent (o ("height")) →
      geometryFactory o = "0" ∧ resizeFactory o ≠ "")
  ∧ (dimAbsent (o ("width")) → dimAbsent (o ("height")) →
      geometryFactory o = "" ∧ resizeFactory o = "") := by
  constructor
  · intro hr hw hh
    have hhc : ¬((o ("height")).truthy = true ∨ o ("height") = JSVal.vNum 0) := by
      simp [hh.1, hh.2]
    have hg : geometryFactory o = "0" := by
      simp only [geometryFactory, hw, if_neg hhc]
      simp [joinSep]
      decide
    exact ⟨hg, resizeFactory_ne_empty o hr (by simp [hg])⟩
  · intro hw hh
    have hwc : ¬((o ("width")).truthy = true ∨ o ("width") = JSVal.vNum 0) := by
      simp [hw.1, hw.2]
    have hhc : ¬((o ("height")).truthy = true ∨ o ("height") = JSVal.vNum 0) := by
      simp [hh.1, hh.2]
    have hg : geometryFactory o = "" := by
      simp only [geometryFactory, if_neg hwc, if_neg hhc]
      simp [joinSep]
    exact ⟨hg, by simp [resizeFactory, hg]⟩

/-- Witness for `geometry_zero_vs_absent`: `width = 0` on an otherwise
default configuration, and the all-default configuration. -/
theorem geometry_zero_vs_absent_witness :
    (geometryFactory (mkOptions [("width", JSVal.vNum 0)]) = "0" ∧
      resizeFactory (mkOptions [("width", JSVal.vNum 0)]) ≠ "") ∧
    (geometryFactory (mkOptions []) = "" ∧ resizeFactory (mkOptions []) = "") :=
  ⟨(geometry_zero_vs_absent (mkOptions [("width", JSVal.vNum 0)])).1
      (by decide) (by decide) ⟨by decide, by decide⟩,
   (geometry_zero_vs_absent (mkOptions [])).2
      ⟨by decide, by decide⟩ ⟨by decide, by decide⟩⟩

/-- C4: with `alpha = 5` and `alpha2 = 7` both present, the serialized
attribute-flag list contains `-alpha 5` and then `-alpha 7`: the digit
suffix is stripped from the flag name, collapsing both keys to `-alpha`,
while each value is emitted once and neither overwrites the other. -/
theorem alpha_digit_suffix (o : Opts)
    (ha : o ("alpha") = .vNum 5) (ha2 : o ("alpha2") = .vNum 7) :
    ∃ l1 l2 l3, attrTokens o =
      l1 ++ ["-alpha", "5"] ++ l2 ++ ["-alpha", "7"] ++ l3 := by
  have hca : attrChunk o ("alpha") = ["-alpha", "5"] := by
    simp only [attrChunk, ha]
    decide
  have hca2 : attrChunk o ("alpha2") = ["-alpha", "7"] := by
    simp only [attrChunk, ha2]
    decide
  refine ⟨attrChunk o ("density") ++ attrChunk o ("background") ++
    attrChunk o ("gravity") ++ attrChunk o ("quality") ++ attrChunk o ("blur") ++
    attrChunk o ("rotate") ++ attrChunk o ("flip"),
    attrChunk o ("clip"), attrChunk o ("strip"), ?_⟩
  simp [attrTokens, attributesMap, hca, hca2, List.append_assoc]

/-- Witness for `alpha_digit_suffix` on a configuration carrying both
alpha keys. -/
theorem alpha_digit_suffix_witness :
    ∃ l1 l2 l3,
      attrTokens (mkOptions [("alpha", JSVal.vNum 5), ("alpha2", JSVal.vNum 7)]) =
        l1 ++ ["-alpha", "5"] ++ l2 ++ ["-alpha", "7"] ++ l3 :=
  alpha_digit_suffix (mkOptions [("alpha", JSVal.vNum 5), ("alpha2", JSVal.vNum 7)])
    (by decide) (by decide)

/-- C5: the flip attribute serializes inside the attribute-flag list as
the single token `-flip` with no following value token when
`flip = true`, and contributes no token at all when `flip` is `false`,
`null` or absent (`undefined`). -/
theorem flip_flag (o : Opts) :
    (∃ l1 l2, attrTokens o = l1 ++ attrChunk o ("flip") ++ l2)
  ∧ (o ("flip") = .vBool true → attrChunk o ("flip") = ["-flip"])
  ∧ (o ("flip") = .vBool false → attrChunk o ("flip") = [])
  ∧ (o ("flip") = .vNull → attrChunk o ("flip") = [])
  ∧ (o ("flip") = .vUndefined → attrChunk o ("flip") = []) := by
  refine ⟨⟨attrChunk o ("density") ++ attrChunk o ("background") ++
    attrChunk o ("gravity") ++ attrChunk o ("quality") ++ attrChunk o ("blur") ++
    attrChunk o ("rotate"),
    attrChunk o ("alpha") ++ attrChunk o ("clip") ++ attrChunk o ("alpha2") ++
      attrChunk o ("strip"), ?_⟩, ?_, ?_, ?_, ?_⟩
  · simp [attrTokens, attributesMap, List.append_assoc]
  all_goals
    intro h
    simp only [attrChunk, h]
    decide

/-- Witness for `flip_flag`: `flip = true` emits exactly `-flip`; the
default configuration (`flip = false`) emits nothing for flip. -/
theorem flip_flag_witness :
    attrChunk (mkOptions [("flip", JSVal.vBool true)]) ("flip") = ["-flip"] ∧
    attrChunk (mkOptions []) ("flip") = [] :=
  ⟨(flip_flag (mkOptions [("flip", JSVal.vBool true)])).2.1 (by decide),
   (flip_flag (mkOptions [])).2.2.1 (by decide)⟩

/-- Point update of an option map (used to state the crop fallback). -/
def setKey (o : Opts) (k : String) (v : JSVal) : Opts :=
  fun key => if key = k then v else o key

/-- C6: a configuration whose resize mode is set (truthy) but is none of
`fit`, `fill`, `crop`, with a non-empty geometry, gets exactly the
resize clause of the same configuration with the mode replaced by
`crop`: unrecognized resize modes fall back to `crop`. -/
theorem resize_mode_fallback (o : Opts)
    (ht : (o ("resize")).truthy = true)
    (hfit : o ("resize") ≠ .vStr ("fit"))
    (hfill : o ("resize") ≠ .vStr ("fill"))
    (hcrop : o ("resize") ≠ .vStr ("crop"))
    (hg : geometryFactory o ≠ "") :
    resizeFactory o = resizeFactory (setKey o ("resize") (.vStr ("crop"))) := by
  have hgeq : geometryFactory (setKey o ("resize") (.vStr ("crop"))) =
      geometryFactory o := by
    simp [geometryFactory, setKey]
  have hnone : resizeMapGet (geometryFactory o) (o ("resize")) = none := by
    simp [resizeMapGet, hfit, hfill, hcrop]
  have hsk : setKey o ("resize") (.vStr ("crop")) ("resize") = .vStr ("crop") := by
    simp [setKey]
  simp only [resizeFactory, hgeq, hsk, hnone]
  have hcond : ¬((o ("resize")).truthy = false ∨ geometryFactory o = "") := by
    simp [ht, hg]
  have hcond2 : ¬((JSVal.vStr ("crop")).truthy = false ∨ geometryFactory o = "") := by
    simp [hg, JSVal.truthy]
  rw [if_neg hcond, if_neg hcond2]
  simp [resizeMapGet, RESIZE_DEFAULT]

/-- Witness for `resize_mode_fallback` at the unrecognized mode
`cover` with `width = 10`. -/
theorem resize_mode_fallback_witness :
    resizeFactory (mkOptions [("resize", JSVal.vStr ("cover")), ("width", JSVal.vNum 10)]) =
      resizeFactory
        (setKey (mkOptions [("resize", JSVal.vStr ("cover")), ("width", JSVal.vNum 10)])
          ("resize") (.vStr ("crop"))) :=
  resize_mode_fallback
    (mkOptions [("resize", JSVal.vStr ("cover")), ("width", JSVal.vNum 10)])
    (by decide) (by decide) (by decide) (by decide) (by decide)

/-- C7: when `srcData` is absent or not a `Buffer`, both the buffered
conversion (`proceed`) and the fan-out conversion (`pipe`) fail
immediately with the fixed invalid-input error — a constant message that
wraps no subprocess information — and no subprocess is spawned
(spawn count = 0). -/
theorem invalid_input_before_spawn (o : Opts)
    (h : ∀ bytes : List Nat, o ("srcData") ≠ .vBuf bytes) :
    proceedSetup o = (Settle.rejected invalidInputMsg, [])
  ∧ pipeSetup o = (Settle.rejected invalidInputMsg, [])
  ∧ spawnCount (proceedSetup o).2 = 0
  ∧ spawnCount (pipeSetup o).2 = 0 := by
  have hok : srcDataOk o = false := by
    simp only [srcDataOk]
    cases hv : o ("srcData") <;>
      first
        | exact absurd hv (h _)
        | simp
  refine ⟨?_, ?_, ?_, ?_⟩ <;> simp [proceedSetup, pipeSetup, hok, spawnCount]

/-- Witness for `invalid_input_before_spawn` on the default
configuration (whose `srcData` is `null`). -/
theorem invalid_input_before_spawn_witness :
    proceedSetup (mkOptions []) = (Settle.rejected invalidInputMsg, []) ∧
    pipeSetup (mkOptions []) = (Settle.rejected invalidInputMsg, []) ∧
    spawnCount (proceedSetup (mkOptions [])).2 = 0 := by
  have h : ∀ bytes : List Nat, mkOptions [] ("srcData") ≠ JSVal.vBuf bytes := by
    intro bytes hc
    simp [mkOptions, assocLookup, optionsDefaults] at hc
  exact ⟨(invalid_input_before_spawn (mkOptions []) h).1,
    (invalid_input_before_spawn (mkOptions []) h).2.1,
    (invalid_input_before_spawn (mkOptions []) h).2.2.1⟩

/-- The option keys the command builder reads: the fixed attribute set
plus resize, width, height and the two format keys. -/
def builderKeys : List String :=
  attributesMap ++ ["resize", "width", "height", "srcFormat", "format"]

/-- C8: two caller option records that agree (after merging with the
defaults) on every key the command builder reads produce identical
command token lists — option names outside the fixed set are never
forwarded to the builder output. -/
theorem unknown_options_inert (c1 c2 : List (String × JSVal))
    (h : ∀ k ∈ builderKeys, mkOptions c1 k = mkOptions c2 k) :
    buildCmd c1 = buildCmd c2 := by
  have hd := h ("density") (by decide)
  have hb := h ("background") (by decide)
  have hgr := h ("gravity") (by decide)
  have hq := h ("quality") (by decide)
  have hbl := h ("blur") (by decide)
  have hro := h ("rotate") (by decide)
  have hfl := h ("flip") (by decide)
  have hal := h ("alpha") (by decide)
  have hcl := h ("clip") (by decide)
  have ha2 := h ("alpha2") (by decide)
  have hst := h ("strip") (by decide)
  have hre := h ("resize") (by decide)
  have hwi := h ("width") (by decide)
  have hhe := h ("height") (by decide)
  have hsf := h ("srcFormat") (by decide)
  have hfo := h ("format") (by decide)
  have hgeom : geometryFactory (mkOptions c1) = geometryFactory (mkOptions c2) := by
    simp only [geometryFactory, hwi, hhe]
  have hres : resizeFactory (mkOptions c1) = resizeFactory (mkOptions c2) := by
    simp only [resizeFactory, hre, hgeom]
  have hchunk : ∀ a, mkOptions c1 a = mkOptions c2 a →
      attrChunk (mkOptions c1) a = attrChunk (mkOptions c2) a := by
    intro a ha
    simp only [attrChunk, ha]
  simp only [buildCmd, getArgs_eq, attrTokens, attributesMap,
    List.flatMap_cons, List.flatMap_nil]
  rw [hsf, hfo, hres, hchunk _ hd, hchunk _ hb, hchunk _ hgr, hchunk _ hq,
    hchunk _ hbl, hchunk _ hro, hchunk _ hfl, hchunk _ hal, hchunk _ hcl,
    hchunk _ ha2, hchunk _ hst]

/-- Witness for `unknown_options_inert`: adding an unknown option leaves
the built command unchanged. -/
theorem unknown_options_inert_witness :
    buildCmd [("width", JSVal.vNum 100)] =
      buildCmd [("width", JSVal.vNum 100), ("someUnknownOption", JSVal.vStr ("ignored"))] :=
  unknown_options_inert [("width", JSVal.vNum 100)]
    [("width", JSVal.vNum 100), ("someUnknownOption", JSVal.vStr ("ignored"))]
    (by decide)

/-- Counterexample to C9 as stated: for a valid configuration the setup
of a conversion registers a process-exit hook
(`process.on('exit', () => cp.kill())`) and its trace contains no
de-registration event — the source has no `process.off`/`removeListener`
call anywhere, so the hook registered for the run is never de-registered
nor replaced once the conversion settles. -/
theorem exit_hook_counterexample :
    (proceedSetup (mkOptions [("srcData", JSVal.vBuf [0])])).1 = Settle.pending ∧
    RunEvent.registerExitHook ∈ (proceedSetup (mkOptions [("srcData", JSVal.vBuf [0])])).2 ∧
    RunEvent.deregisterExitHook ∉ (proceedSetup (mkOptions [("srcData", JSVal.vBuf [0])])).2 := by
  decide

/-- C9 (amended): each conversion run with valid source bytes registers
exactly one process-exit hook and de-registers none, so across `n`
conversions the process-wide hook registry accumulates exactly `n`
hooks. -/
theorem exit_hook_accumulates (o : Opts) (n : Nat)
    (h : srcDataOk o = true) :
    (proceedSetup o).2.count RunEvent.registerExitHook = 1
  ∧ (proceedSetup o).2.count RunEvent.deregisterExitHook = 0
  ∧ (manyTraces o n).count RunEvent.registerExitHook = n
  ∧ (manyTraces o n).count RunEvent.deregisterExitHook = 0 := by
  have h1 : (proceedSetup o).2 =
      [RunEvent.spawnProc ((o ("path")).toStr)
        (getArgs o (getHandle (o ("srcFormat")) JSVal.vNull)
          (getHandle (o ("format")) JSVal.vNull)),
       RunEvent.registerExitHook] := by
    simp [proceedSetup, h]
  have hr : (proceedSetup o).2.count RunEvent.registerExitHook = 1 := by
    rw [h1]
    simp [List.count_cons]
  have hdr : (proceedSetup o).2.count RunEvent.deregisterExitHook = 0 := by
    rw [h1]
    simp [List.count_cons]
  refine ⟨hr, hdr, ?_⟩
  induction n with
  | zero => simp [manyTraces]
  | succ k ih =>
    have hstep : manyTraces o (k + 1) = (proceedSetup o).2 ++ manyTraces o k := by
      simp [manyTraces, List.replicate_succ]
    rw [hstep]
    simp [List.count_append, ih.1, ih.2, hr, hdr]
    omega

/-- Witness for `exit_hook_accumulates`: three conversions of a valid
configuration leave three registered hooks and zero de-registrations. -/
theorem exit_hook_accumulates_witness :
    (manyTraces (mkOptions [("srcData", JSVal.vBuf [0])]) 3).count
        RunEvent.registerExitHook = 3 ∧
    (manyTraces (mkOptions [("srcData", JSVal.vBuf [0])]) 3).count
        RunEvent.deregisterExitHook = 0 :=
  ⟨(exit_hook_accumulates (mkOptions [("srcData", JSVal.vBuf [0])]) 3 (by decide)).2.2.1,
   (exit_hook_accumulates (mkOptions [("srcData", JSVal.vBuf [0])]) 3 (by decide)).2.2.2⟩

/-- C10: when the caller overrides none of `density`, `background`,
`gravity`, `quality`, the built command's attribute-flag tokens include
`-density 600`, `-background none`, `-gravity Center` and `-quality 75`
(the truthy defaults are always serialized). -/
theorem default_attribute_flags (caller : List (String × JSVal))
    (hd : assocLookup caller ("density") = none)
    (hb : assocLookup caller ("background") = none)
    (hg : assocLookup caller ("gravity") = none)
    (hq : assocLookup caller ("quality") = none) :
    ∃ l0 l1 l2 l3 l4, buildCmd caller =
      l0 ++ ["-density", "600"] ++ l1 ++ ["-background", "none"] ++ l2 ++
        ["-gravity", "Center"] ++ l3 ++ ["-quality", "75"] ++ l4 := by
  have hvd : mkOptions caller ("density") = .vNum 600 := by
    simp only [mkOptions, hd]
    decide
  have hvb : mkOptions caller ("background") = .vStr ("none") := by
    simp only [mkOptions, hb]
    decide
  have hvg : mkOptions caller ("gravity") = .vStr ("Center") := by
    simp only [mkOptions, hg]
    decide
  have hvq : mkOptions caller ("quality") = .vNum 75 := by
    simp only [mkOptions, hq]
    decide
  have hcd : attrChunk (mkOptions caller) ("density") = ["-density", "600"] := by
    simp only [attrChunk, hvd]
    decide
  have hcb : attrChunk (mkOptions caller) ("background") = ["-background", "none"] := by
    simp only [attrChunk, hvb]
    decide
  have hcg : attrChunk (mkOptions caller) ("gravity") = ["-gravity", "Center"] := by
    simp only [attrChunk, hvg]
    decide
  have hcq : attrChunk (mkOptions caller) ("quality") = ["-quality", "75"] := by
    simp only [attrChunk, hvq]
    decide
  refine ⟨[getHandle (mkOptions caller ("srcFormat")) JSVal.vNull], [], [], [],
    attrChunk (mkOptions caller) ("blur") ++ attrChunk (mkOptions caller) ("rotate") ++
      attrChunk (mkOptions caller) ("flip") ++ attrChunk (mkOptions caller) ("alpha") ++
      attrChunk (mkOptions caller) ("clip") ++ attrChunk (mkOptions caller) ("alpha2") ++
      attrChunk (mkOptions caller) ("strip") ++
      (if resizeFactory (mkOptions caller) = "" then []
        else [resizeFactory (mkOptions caller)]) ++
      [getHandle (mkOptions caller ("format")) JSVal.vNull], ?_⟩
  simp only [buildCmd, getArgs_eq, attrTokens, attributesMap,
    List.flatMap_cons, List.flatMap_nil, hcd, hcb, hcg, hcq]
  simp [List.append_assoc]

/-- Witness for `default_attribute_flags` at a caller record that sets
only `width`. -/
theorem default_attribute_flags_witness :
    ∃ l0 l1 l2 l3 l4, buildCmd [("width", JSVal.vNum 9)] =
      l0 ++ ["-density", "600"] ++ l1 ++ ["-background", "none"] ++ l2 ++
        ["-gravity", "Center"] ++ l3 ++ ["-quality", "75"] ++ l4 :=
  default_attribute_flags [("width", JSVal.vNum 9)]
    (by decide) (by decide) (by decide) (by decide)
